import Mathlib

/-!
Shallow embedding of the venue-booking CRM server (TypeScript/Express/Prisma)
for verification of its natural-language specification.

Each definition is translated from a named source file of the repository:
  * `Model`        — relational rows (prisma schema / shared types)
  * `DbUtils`      — src/server/lib/db-utils.ts (pagination, deletion guards,
                     prisma-error message translation)
  * `Permissions`  — src/server/middleware/permissions (role → permission table)
  * `Auth`         — src/server/lib/auth.ts (findOrCreateUser)
  * `ErrorHandler` — src/server/middleware/errorHandler.ts
  * `Security`     — src/server/middleware/security.ts (body size limit)
  * `Routes`       — src/server/routes/clients.ts and venues.ts handlers
  * `CommissionCalc` — the charge-line/commission arithmetic (spec §4.2)

JavaScript idioms are made explicit: `x || d` on strings/numbers is embedded
as a function that tests for the falsy values relevant to the type (`""`, `0`,
absence); template literals become string interpolation; a thrown error
becomes an `Except.error`; the mutable database becomes explicit state passing
over lists of rows.
-/

namespace VenueCRM

/-! ## Data model (prisma schema rows, shared/types) -/

namespace Model

/-- A `clients` row.  Optional text columns are nullable (`Option String`). -/
structure Client where
  id : Nat
  name : String
  company : Option String
  contactName : Option String
  email : Option String
  phone : Option String
  notes : Option String
  createdBy : Nat
  deriving Repr, DecidableEq

/-- A `venues` row (fields not needed by the claims are omitted). -/
structure Venue where
  id : Nat
  name : String
  deriving Repr, DecidableEq

/-- A `proposals` row (only the foreign key matters to the deletion guards). -/
structure Proposal where
  id : Nat
  clientId : Nat
  deriving Repr, DecidableEq

/-- A `proposal_venues` junction row. -/
structure ProposalVenue where
  id : Nat
  venueId : Nat
  deriving Repr, DecidableEq

/-- A `bookings` row (foreign keys only). -/
structure Booking where
  id : Nat
  clientId : Nat
  venueId : Nat
  deriving Repr, DecidableEq

/-- A `users` row. -/
structure User where
  id : Nat
  email : String
  name : String
  role : String
  provider : String
  providerId : String
  deriving Repr, DecidableEq

/-- The relational store: one list of rows per table. -/
structure DB where
  clients : List Client
  venues : List Venue
  proposals : List Proposal
  proposalVenues : List ProposalVenue
  bookings : List Booking
  deriving Repr, DecidableEq

end Model

/-! ## db-utils: pagination helpers and deletion guards -/

namespace DbUtils

open Model

/-- JavaScript `x || d` for an optional number: absent or `0` falls back. -/
def jsOrNat (x : Option Nat) (d : Nat) : Nat :=
  match x with
  | none => d
  | some v => if v = 0 then d else v

/-- Source `PaginationOptions` (page?, limit?). -/
structure PaginationOptions where
  page : Option Nat
  limit : Option Nat
  deriving Repr, DecidableEq

/-- Result of `applyPagination`. -/
structure AppliedPagination where
  skip : Nat
  take : Nat
  page : Nat
  limit : Nat
  deriving Repr, DecidableEq

/-- Source `applyPagination`: clamp page to ≥ 1 and limit into [1, 100], compute the
skip offset `(page - 1) * limit`. -/
def applyPagination (options : PaginationOptions) : AppliedPagination :=
  let page := max 1 (jsOrNat options.page 1)
  let limit := min 100 (max 1 (jsOrNat options.limit 10))
  let skip := (page - 1) * limit
  { skip := skip, take := limit, page := page, limit := limit }

/-- Pagination metadata of `createPaginatedResult`. -/
structure PaginationMeta where
  page : Nat
  limit : Nat
  total : Nat
  totalPages : Int
  hasNext : Bool
  hasPrev : Bool
  deriving Repr, DecidableEq

/-- Source `createPaginatedResult` metadata: `totalPages = Math.ceil(total / limit)`
(real division; all callers pass `limit ≥ 1` from `applyPagination`),
`hasNext = page < totalPages`, `hasPrev = page > 1`. -/
def createPaginatedResult (total page limit : Nat) : PaginationMeta :=
  let totalPages : Int := ⌈(total : ℚ) / (limit : ℚ)⌉
  { page := page
    limit := limit
    total := total
    totalPages := totalPages
    hasNext := decide ((page : Int) < totalPages)
    hasPrev := decide (page > 1) }

/-- Count of `proposals` rows with the given `clientId`
(`prisma.proposal.count({ where: { clientId } })`). -/
def clientProposalCount (db : DB) (clientId : Nat) : Nat :=
  (db.proposals.filter (fun p => p.clientId == clientId)).length

/-- Count of `bookings` rows with the given `clientId`. -/
def clientBookingCount (db : DB) (clientId : Nat) : Nat :=
  (db.bookings.filter (fun b => b.clientId == clientId)).length

/-- Count of `proposal_venues` rows with the given `venueId`. -/
def venueProposalVenueCount (db : DB) (venueId : Nat) : Nat :=
  (db.proposalVenues.filter (fun pv => pv.venueId == venueId)).length

/-- Count of `bookings` rows with the given `venueId`. -/
def venueBookingCount (db : DB) (venueId : Nat) : Nat :=
  (db.bookings.filter (fun b => b.venueId == venueId)).length

/-- Return shape of the deletion guards. -/
structure DeleteCheck where
  canDelete : Bool
  reason : Option String
  deriving Repr, DecidableEq

/-- Source `canDeleteClient`: count dependent proposals and bookings; refuse with a
reason naming both counts when either is positive. -/
def canDeleteClient (db : DB) (clientId : Nat) : DeleteCheck :=
  let proposalCount := clientProposalCount db clientId
  let bookingCount := clientBookingCount db clientId
  if proposalCount > 0 || bookingCount > 0 then
    { canDelete := false
      reason := some
        s!"Client has {proposalCount} proposal(s) and {bookingCount} booking(s)" }
  else
    { canDelete := true, reason := none }

/-- Source `canDeleteVenue`: count dependent proposal-venues and bookings; refuse with
a reason naming both counts when either is positive. -/
def canDeleteVenue (db : DB) (venueId : Nat) : DeleteCheck :=
  let proposalVenueCount := venueProposalVenueCount db venueId
  let bookingCount := venueBookingCount db venueId
  if proposalVenueCount > 0 || bookingCount > 0 then
    { canDelete := false
      reason := some
        s!"Venue has {proposalVenueCount} proposal(s) and {bookingCount} booking(s)" }
  else
    { canDelete := true, reason := none }

end DbUtils

/-! ## Permission table (middleware/permissions) -/

namespace Permissions

/-- The `Permission` enum (its members are string constants in the source;
here an inductive with one constructor per member). -/
inductive Permission where
  | manageUsers
  | viewAllUsers
  | createClient
  | viewClient
  | updateClient
  | deleteClient
  | viewAllClients
  | createVenue
  | viewVenue
  | updateVenue
  | deleteVenue
  | viewAllVenues
  | createProposal
  | viewProposal
  | updateProposal
  | deleteProposal
  | viewAllProposals
  | createBooking
  | viewBooking
  | updateBooking
  | deleteBooking
  | viewAllBookings
  | createCommissionClaim
  | viewCommissionClaim
  | updateCommissionClaim
  | deleteCommissionClaim
  | viewAllCommissionClaims
  | viewReports
  | viewAllReports
  | exportData
  | manageSystemSettings
  | viewAuditLogs
  deriving Repr, DecidableEq

open Permission

/-- The admin entry of `ROLE_PERMISSIONS` (all permissions). -/
def adminPermissions : List Permission :=
  [manageUsers, viewAllUsers,
   createClient, viewClient, updateClient, deleteClient, viewAllClients,
   createVenue, viewVenue, updateVenue, deleteVenue, viewAllVenues,
   createProposal, viewProposal, updateProposal, deleteProposal,
   viewAllProposals,
   createBooking, viewBooking, updateBooking, deleteBooking, viewAllBookings,
   createCommissionClaim, viewCommissionClaim, updateCommissionClaim,
   deleteCommissionClaim, viewAllCommissionClaims,
   viewReports, viewAllReports, exportData,
   manageSystemSettings, viewAuditLogs]

/-- The consultant entry of `ROLE_PERMISSIONS`. -/
def consultantPermissions : List Permission :=
  [createClient, viewClient, updateClient, deleteClient,
   createVenue, viewVenue, updateVenue, deleteVenue,
   createProposal, viewProposal, updateProposal, deleteProposal,
   createBooking, viewBooking, updateBooking, deleteBooking,
   createCommissionClaim, viewCommissionClaim, updateCommissionClaim,
   deleteCommissionClaim,
   viewReports]

/-- Source `ROLE_PERMISSIONS[userRole] || []` restricted to role strings that
are not inherited `Object.prototype` property names: an own key yields its
permission list, an absent key yields undefined and the fallback gives the
empty list.  The full JavaScript lookup — including the prototype-chain path
on which the subsequent `.includes` call throws — is `rolePermissionsLookup`
and `hasPermissionJs` below. -/
def rolePermissions (role : String) : List Permission :=
  if role = "admin" then adminPermissions
  else if role = "consultant" then consultantPermissions
  else []

/-- The property names a plain object literal inherits from
`Object.prototype`: bracket lookup with one of these as key returns the
inherited member (a function, or the prototype object for `__proto__`),
which is truthy. -/
def objectPrototypeKeys : List String :=
  ["constructor", "hasOwnProperty", "isPrototypeOf", "propertyIsEnumerable",
   "toLocaleString", "toString", "valueOf", "__proto__", "__defineGetter__",
   "__defineSetter__", "__lookupGetter__", "__lookupSetter__"]

/-- Outcome of the bracket lookup `ROLE_PERMISSIONS[userRole]` on the plain
object literal: an own key's permission array, a truthy member inherited
from `Object.prototype` (not an array), or undefined. -/
inductive RolePermissionsLookup where
  | array (permissions : List Permission)
  | inherited
  | undef
  deriving Repr, DecidableEq

/-- The full JavaScript semantics of `ROLE_PERMISSIONS[userRole]`: the two
own keys map to their arrays, `Object.prototype` property names reach the
inherited member through the prototype chain, anything else is undefined. -/
def rolePermissionsLookup (role : String) : RolePermissionsLookup :=
  if role = "admin" then RolePermissionsLookup.array adminPermissions
  else if role = "consultant" then
    RolePermissionsLookup.array consultantPermissions
  else if objectPrototypeKeys.contains role then
    RolePermissionsLookup.inherited
  else RolePermissionsLookup.undef

/-- Result of evaluating a JavaScript expression: a value, or a thrown
TypeError. -/
inductive JsResult (α : Type) where
  | ok (value : α)
  | typeError
  deriving Repr, DecidableEq

/-- The `AuthenticatedUser` shape of lib/auth.ts; `role` is a plain string
(`user.role as UserRole` in the source is an unchecked cast). -/
structure AuthenticatedUser where
  id : Nat
  email : String
  name : String
  role : String
  provider : String
  providerId : String
  deriving Repr, DecidableEq

/-- Source `hasPermission`: membership of the permission in the user's role row. -/
def hasPermission (user : AuthenticatedUser) (permission : Permission) : Bool :=
  (rolePermissions user.role).contains permission

/-- Source `hasPermission` under the full JavaScript lookup semantics:
`const rolePermissions = ROLE_PERMISSIONS[userRole] || [];` keeps a truthy
inherited member as is, so the following
`rolePermissions.includes(permission)` throws a TypeError on it; an
undefined lookup falls back to the empty array and the call returns false. -/
def hasPermissionJs (user : AuthenticatedUser) (permission : Permission) :
    JsResult Bool :=
  match rolePermissionsLookup user.role with
  | RolePermissionsLookup.array ps => JsResult.ok (ps.contains permission)
  | RolePermissionsLookup.inherited => JsResult.typeError
  | RolePermissionsLookup.undef =>
      JsResult.ok (([] : List Permission).contains permission)

/-- Source `canAccessOwnResource`: admins always, otherwise creator only. -/
def canAccessOwnResource (user : AuthenticatedUser)
    (resourceCreatorId : Nat) : Bool :=
  if user.role = "admin" then true
  else user.id == resourceCreatorId

end Permissions

/-! ## Authentication (lib/auth.ts, `findOrCreateUser`) -/

namespace Auth

open Model

/-- The OAuth profile fields `findOrCreateUser` reads.  `emails` is the list
of e-mail values; a missing entry or value is absence from the list. -/
structure OAuthProfile where
  id : String
  displayName : Option String
  emails : List String
  givenName : Option String
  familyName : Option String
  deriving Repr, DecidableEq

/-- JavaScript string coercion of a possibly-undefined value, as in
`profile.name?.givenName + ' ' + profile.name?.familyName`. -/
def jsStr (s : Option String) : String :=
  match s with
  | some v => v
  | none => "undefined"

/-- Source `profile.displayName || givenName + ' ' + familyName` (an absent or
empty display name is falsy). -/
def oauthName (profile : OAuthProfile) : String :=
  match profile.displayName with
  | some s =>
      if s = "" then jsStr profile.givenName ++ " " ++ jsStr profile.familyName
      else s
  | none => jsStr profile.givenName ++ " " ++ jsStr profile.familyName

/-- Source `findOrCreateUser` over an explicit user table.  `nextId` is the id the
database would assign to a newly inserted row.  Returns the updated table and
the returned user; a missing e-mail raises (`throw` in the source). -/
def findOrCreateUser (users : List User) (nextId : Nat)
    (profile : OAuthProfile) (provider : String) :
    Except String (List User × User) :=
  let email := (profile.emails.head?).getD ""
  let name := oauthName profile
  let providerId := profile.id
  if email = "" then
    Except.error "Email is required from OAuth provider"
  else
    match users.find? (fun u => u.email == email) with
    | some u =>
        let updated : User :=
          { u with name := name, provider := provider, providerId := providerId }
        Except.ok
          (users.map (fun v => if v.id == u.id then updated else v), updated)
    | none =>
        let created : User :=
          { id := nextId, email := email, name := name, role := "consultant"
            provider := provider, providerId := providerId }
        Except.ok (users ++ [created], created)

end Auth

/-! ## Centralised error translation (middleware/errorHandler.ts) -/

namespace ErrorHandler

/-- The `ApiError` shape (`statusCode`, stable `code`, message, optional
`field`, structured `details` as key/value pairs). -/
structure ApiError where
  statusCode : Nat
  code : String
  message : String
  field : Option String
  details : List (String × String)
  deriving Repr, DecidableEq

/-- Source `createError.badRequest`. -/
def createBadRequest (message : String) (field : Option String)
    (details : List (String × String)) : ApiError :=
  { statusCode := 400, code := "BAD_REQUEST", message := message
    field := field, details := details }

/-- Source `createError.unauthorized`. -/
def createUnauthorized (message : String) : ApiError :=
  { statusCode := 401, code := "UNAUTHORIZED", message := message
    field := none, details := [] }

/-- Source `createError.notFound`. -/
def createNotFound (message : String) : ApiError :=
  { statusCode := 404, code := "NOT_FOUND", message := message
    field := none, details := [] }

/-- Source `createError.conflict` (no `field` parameter: details only). -/
def createConflict (message : String)
    (details : List (String × String)) : ApiError :=
  { statusCode := 409, code := "CONFLICT", message := message
    field := none, details := details }

/-- Source `createError.internal` (default message `'Internal server error'`). -/
def createInternal (message : String) : ApiError :=
  { statusCode := 500, code := "INTERNAL_ERROR", message := message
    field := none, details := [] }

/-- A `PrismaClientKnownRequestError`: a database error code, the raw driver
message, and `meta.target` (the columns of a violated unique constraint). -/
structure PrismaKnownRequestError where
  code : String
  message : String
  target : Option (List String)
  deriving Repr, DecidableEq

/-- Source `target?.[0] || 'field'`: first target column, falling back to the
literal `'field'` when the array is absent, empty, or starts with `''`. -/
def targetField (target : Option (List String)) : String :=
  match target with
  | some (t :: _) => if t = "" then "field" else t
  | _ => "field"

/-- Source `handlePrismaError` of errorHandler.ts: map database error codes to
application errors.  The default branch logs the code and message and returns
a generic internal error whose message does not depend on the input. -/
def handlePrismaError (error : PrismaKnownRequestError) : ApiError :=
  if error.code = "P2002" then
    let field := targetField error.target
    createConflict s!"A record with this {field} already exists"
      [("field", field), ("constraint", "unique")]
  else if error.code = "P2025" then
    createNotFound "Record not found"
  else if error.code = "P2003" then
    createBadRequest "Cannot perform this operation due to related records"
      none [("constraint", "foreign_key")]
  else if error.code = "P2014" then
    createBadRequest "Required relation is missing" none
      [("constraint", "required_relation")]
  else
    createInternal "Database operation failed"

/-- JavaScript `string.includes(pattern)` for a non-empty pattern. -/
def includes (s pat : String) : Bool :=
  (s.splitOn pat).length != 1

/-- The error values reaching `errorHandler`: an `AppError` thrown by a
handler, a known or validation database error, or any other error identified
by its `name` and `message`. -/
inductive ServerError where
  | appError (e : ApiError)
  | prismaKnown (e : PrismaKnownRequestError)
  | prismaValidation (message : String)
  | generic (name : String) (message : String)
  deriving Repr, DecidableEq

/-- Source `errorHandler`: translate any error to an `ApiError` (the response status
and envelope are taken from the result). -/
def errorHandler (err : ServerError) : ApiError :=
  match err with
  | ServerError.appError e => e
  | ServerError.prismaKnown e => handlePrismaError e
  | ServerError.prismaValidation message =>
      createBadRequest "Invalid data provided" none
        [("type", "validation"), ("details", message)]
  | ServerError.generic name message =>
      if name = "ValidationError" then
        createBadRequest "Validation failed" none [("details", message)]
      else if name = "CastError" then
        createBadRequest "Invalid ID format" none []
      else if name = "JsonWebTokenError" then
        createUnauthorized "Invalid token"
      else if name = "TokenExpiredError" then
        createUnauthorized "Token expired"
      else if name = "SyntaxError" && includes message "JSON" then
        createBadRequest "Invalid JSON format" none []
      else if name = "PayloadTooLargeError" then
        createBadRequest "Request payload too large" none
          [("limit", "10mb"), ("type", "payload_size")]
      else
        createInternal "Internal server error"

/-- errorHandler.ts logs at error severity exactly the responses with a 5xx
status (lower-severity warn otherwise). -/
def loggedAsServerError (e : ApiError) : Bool :=
  500 ≤ e.statusCode

end ErrorHandler

/-! ## Security middleware (body size limit, middleware/security.ts) -/

namespace Security

open ErrorHandler

/-- The unit table of `parseSize` (`units[unit] || 1`). -/
def sizeUnits (unit : String) : Nat :=
  if unit = "b" then 1
  else if unit = "kb" then 1024
  else if unit = "mb" then 1024 * 1024
  else if unit = "gb" then 1024 * 1024 * 1024
  else 1

/-- Decimal value of a digit sequence. -/
def digitsToNat (cs : List Char) : Nat :=
  cs.foldl (fun acc c => acc * 10 + (c.toNat - 48)) 0

/-- Source `parseSize`: lower-case the size string, split it into its leading
integer and its unit, and multiply by the unit factor.  (The source's regular
expression also accepts a fractional value and whitespace before the unit;
the configured limit `'10mb'` is of the integer, no-whitespace form embedded
here, and an all-empty digit part yields 0 as the unmatched regex does.) -/
def parseSize (size : String) : Nat :=
  let lower := size.data.map Char.toLower
  let digits := lower.takeWhile Char.isDigit
  let unit : String := String.mk (lower.dropWhile Char.isDigit)
  if digits.isEmpty then 0
  else digitsToNat digits * sizeUnits (if unit = "" then "b" else unit)

/-- Source `bodySizeLimit(limit)`: reject a request whose `Content-Length` exceeds
the parsed limit with a 413 `PAYLOAD_TOO_LARGE` envelope; otherwise pass it
through (`none`). -/
def bodySizeLimit (limit : String) (contentLength : Nat) : Option ApiError :=
  if contentLength > parseSize limit then
    some { statusCode := 413, code := "PAYLOAD_TOO_LARGE"
           message := s!"Request body too large. Maximum size is {limit}"
           field := none, details := [] }
  else
    none

/-- A request as seen by the body-size stages: its `Content-Length` and
whether one of the mounted body parsers (`express.json`,
`express.urlencoded`) parses its body (i.e. a matching content type). -/
structure IncomingRequest where
  contentLength : Nat
  parsedBody : Bool
  deriving Repr, DecidableEq

/-- The body-size stage of the application pipeline, in the mounting order of
the app entry file: `express.json({ limit: '10mb' })` and
`express.urlencoded({ ..., limit: '10mb' })` run BEFORE
`bodySizeLimit('10mb')`, and the centralised `errorHandler` is last.  The body
parsers are external library code; per their documented behaviour they reject
a body exceeding the configured limit by raising an error whose `name` is
`'PayloadTooLargeError'`, which then reaches `errorHandler` (the handler's
dedicated branch for that name marks this path as intended).  A request the
parsers let through continues to `bodySizeLimit`.  Result: `some` error
envelope, or `none` when the request proceeds to the routes. -/
def bodySizePipeline (r : IncomingRequest) : Option ApiError :=
  if r.parsedBody && decide (parseSize "10mb" < r.contentLength) then
    some (errorHandler
      (ServerError.generic "PayloadTooLargeError" "request entity too large"))
  else
    bodySizeLimit "10mb" r.contentLength

end Security

/-! ## Route handlers (routes/clients.ts, routes/venues.ts) -/

namespace Routes

open Model DbUtils

/-- The observable part of a handler's reply: HTTP status, the error `code`
of the envelope when unsuccessful, and the message. -/
structure RouteResponse where
  status : Nat
  errorCode : Option String
  message : String
  deriving Repr, DecidableEq

/-- Source `prisma.client.findUnique({ where: { id } })`. -/
def findClient (db : DB) (clientId : Nat) : Option Client :=
  db.clients.find? (fun c => c.id == clientId)

/-- Source `prisma.venue.findUnique({ where: { id } })`. -/
def findVenue (db : DB) (venueId : Nat) : Option Venue :=
  db.venues.find? (fun v => v.id == venueId)

/-- JavaScript `value || null` on an optional string field of the request
body: absent and empty-string both store NULL. -/
def jsOrNull (value : Option String) : Option String :=
  match value with
  | none => none
  | some s => if s = "" then none else some s

/-- The validated body of `POST /api/clients` (`name` required, the rest
optional, empty strings allowed). -/
structure ClientCreateBody where
  name : String
  company : Option String
  contactName : Option String
  email : Option String
  phone : Option String
  notes : Option String
  deriving Repr, DecidableEq

/-- The `cleanedData` object of the `POST /api/clients` handler: empty
strings become NULL on every optional field, `createdBy` is the caller. -/
def cleanedClientData (body : ClientCreateBody) (userId nextId : Nat) :
    Client :=
  { id := nextId
    name := body.name
    company := jsOrNull body.company
    contactName := jsOrNull body.contactName
    email := jsOrNull body.email
    phone := jsOrNull body.phone
    notes := jsOrNull body.notes
    createdBy := userId }

/-- Source `POST /api/clients`: insert the cleaned row (`prisma.client.create`) and
return it with a 201. -/
def postClientHandler (db : DB) (body : ClientCreateBody)
    (userId nextId : Nat) : DB × Nat × Client :=
  let client := cleanedClientData body userId nextId
  ({ db with clients := db.clients ++ [client] }, 201, client)

/-- Source `DELETE /api/clients/:id`: 404 when the client does not exist, 409
`CONFLICT` when the deletion guard refuses (client untouched), otherwise
delete the row and reply 200. -/
def deleteClientHandler (db : DB) (clientId : Nat) : RouteResponse × DB :=
  match findClient db clientId with
  | none =>
      ({ status := 404, errorCode := some "NOT_FOUND"
         message := "Client not found" }, db)
  | some _ =>
      let check := canDeleteClient db clientId
      if check.canDelete = false then
        ({ status := 409, errorCode := some "CONFLICT"
           message := "Cannot delete client: " ++ jsStrOf check.reason }, db)
      else
        ({ status := 200, errorCode := none
           message := "Client deleted successfully" },
         { db with clients := db.clients.filter (fun c => c.id != clientId) })
where
  /-- Template-literal coercion of the optional reason. -/
  jsStrOf (reason : Option String) : String :=
    match reason with
    | some r => r
    | none => "undefined"

/-- Source `DELETE /api/venues/:id`: 404 when the venue does not exist, 409
`CONFLICT` when the deletion guard refuses (venue untouched), otherwise
delete the row and reply 200. -/
def deleteVenueHandler (db : DB) (venueId : Nat) : RouteResponse × DB :=
  match findVenue db venueId with
  | none =>
      ({ status := 404, errorCode := some "NOT_FOUND"
         message := "Venue not found" }, db)
  | some _ =>
      let check := canDeleteVenue db venueId
      if check.canDelete = false then
        ({ status := 409, errorCode := some "CONFLICT"
           message := "Cannot delete venue: " ++ jsStrOf check.reason }, db)
      else
        ({ status := 200, errorCode := none
           message := "Venue deleted successfully" },
         { db with venues := db.venues.filter (fun v => v.id != venueId) })
where
  /-- Template-literal coercion of the optional reason. -/
  jsStrOf (reason : Option String) : String :=
    match reason with
    | some r => r
    | none => "undefined"

end Routes

/-! ## Commission / charge-line calculation -/

namespace CommissionCalc

/-- Modelled from the spec: the charge-line record of a `ProposalVenue`
(§3, §4.2); the computation code itself is not among the provided source
files, only its data declarations.  Monetary quantities are exact rationals
(fixed-point decimals in the spec's global invariant). -/
structure ChargeLine where
  description : String
  quantity : ℚ
  unitPrice : ℚ
  deriving Repr, DecidableEq

/-- Modelled from the spec: each line's total is quantity × unit price
(§4.2). -/
def lineTotal (line : ChargeLine) : ℚ :=
  line.quantity * line.unitPrice

/-- Modelled from the spec: the aggregate proposal total is the sum of the
line totals (§4.2). -/
def proposalTotal (lines : List ChargeLine) : ℚ :=
  (lines.map lineTotal).sum

/-- Modelled from the spec: expected commission is
total × (override rate if present, else the venue's standard rate) / 100
(§4.2). -/
def expectedCommission (lines : List ChargeLine)
    (standardCommission : ℚ) (commissionOverride : Option ℚ) : ℚ :=
  proposalTotal lines * (commissionOverride.getD standardCommission) / 100

end CommissionCalc

/-! ## Verified properties -/

namespace Claims

open Model DbUtils Permissions Auth ErrorHandler Security Routes CommissionCalc

/-- Example row for the concrete instantiations: a client with one proposal
referencing it. -/
def exClient : Client :=
  { id := 1, name := "Acme", company := none, contactName := none
    email := none, phone := none, notes := none, createdBy := 7 }

/-- A store in which client 1 has one dependent proposal. -/
def exDbBlocked : DB :=
  { clients := [exClient], venues := []
    proposals := [{ id := 5, clientId := 1 }], proposalVenues := []
    bookings := [] }

/-- A store holding one venue nothing references, and one the bookings
reference. -/
def exDbVenues : DB :=
  { clients := [], venues := [{ id := 1, name := "Test Venue" },
                              { id := 2, name := "Busy Venue" }]
    proposals := [], proposalVenues := []
    bookings := [{ id := 9, clientId := 3, venueId := 2 }] }

/-- A concrete OAuth profile for the witness. -/
def exProfile : OAuthProfile :=
  { id := "google-123", displayName := some "Jane Doe"
    emails := ["jane@example.com"], givenName := some "Jane"
    familyName := some "Doe" }

/-- Body of the witness request: only the name, the rest blank or absent. -/
def exBody : ClientCreateBody :=
  { name := "Solo", company := some "", contactName := some ""
    email := none, phone := some "", notes := none }

/-- The empty store for the witness. -/
def exEmptyDb : DB :=
  { clients := [], venues := [], proposals := [], proposalVenues := []
    bookings := [] }

/-- An admin user for the witnesses. -/
def exAdmin : AuthenticatedUser :=
  { id := 1, email := "admin@example.com", name := "Admin", role := "admin"
    provider := "google", providerId := "admin-1" }

/-- A consultant user for the witnesses. -/
def exConsultant : AuthenticatedUser :=
  { id := 2, email := "cons@example.com", name := "Cons", role := "consultant"
    provider := "google", providerId := "cons-1" }

/-- A user with an unrecognised role for the C10 witness. -/
def exStranger : AuthenticatedUser :=
  { id := 9, email := "s@example.com", name := "S", role := "superuser"
    provider := "google", providerId := "s-9" }

/-- A user whose role string is an inherited `Object.prototype` key. -/
def exProtoUser : AuthenticatedUser :=
  { id := 10, email := "c@example.com", name := "C", role := "constructor"
    provider := "google", providerId := "c-10" }

/-- C1: the client deletion guard permits deletion exactly when no proposal
and no booking references the client; otherwise it refuses with a reason
stating both dependent counts, and the DELETE route replies 409 `CONFLICT`
leaving the database unchanged. -/
theorem canDeleteClient_gates_delete (db : DB) (clientId : Nat) :
    ((canDeleteClient db clientId).canDelete = true ↔
      (clientProposalCount db clientId = 0 ∧ clientBookingCount db clientId = 0)) ∧
    ((canDeleteClient db clientId).canDelete = false →
      (canDeleteClient db clientId).reason =
        some ("Client has " ++ toString (clientProposalCount db clientId) ++
          " proposal(s) and " ++ toString (clientBookingCount db clientId) ++
          " booking(s)")) ∧
    ((findClient db clientId).isSome = true →
      (canDeleteClient db clientId).canDelete = false →
      (deleteClientHandler db clientId).1.status = 409 ∧
      (deleteClientHandler db clientId).1.errorCode = some "CONFLICT" ∧
      (deleteClientHandler db clientId).2 = db) := by
  refine ⟨?_, ?_, ?_⟩
  · unfold canDeleteClient
    dsimp only
    split
    next h =>
      simp only [Bool.or_eq_true, decide_eq_true_eq] at h
      simp only [Bool.false_eq_true, false_iff, not_and]
      omega
    next h =>
      simp only [Bool.or_eq_true, decide_eq_true_eq] at h
      simp only [true_iff]
      omega
  · unfold canDeleteClient
    dsimp only
    split
    next h => intro _; rfl
    next h => intro hfalse; simp at hfalse
  · intro hsome hfalse
    obtain ⟨c, hc⟩ := Option.isSome_iff_exists.mp hsome
    unfold deleteClientHandler
    rw [hc]
    simp [hfalse]

/-- Witness for C1: on the concrete store, the guard refuses with the counts
in its reason and the route replies 409 without deleting. -/
theorem canDeleteClient_gates_delete_witness :
    ((canDeleteClient exDbBlocked 1).canDelete = false →
      (canDeleteClient exDbBlocked 1).reason =
        some ("Client has " ++ toString (clientProposalCount exDbBlocked 1) ++
          " proposal(s) and " ++ toString (clientBookingCount exDbBlocked 1) ++
          " booking(s)")) ∧
    (deleteClientHandler exDbBlocked 1).1.status = 409 ∧
    (deleteClientHandler exDbBlocked 1).2 = exDbBlocked := by
  have h := canDeleteClient_gates_delete exDbBlocked 1
  exact ⟨h.2.1, (h.2.2 (by rfl) (by rfl)).1, (h.2.2 (by rfl) (by rfl)).2.2⟩

/-- C2: DELETE of a venue replies 404 when the venue does not exist; 200 with
the venue removed when nothing references it; 409 `CONFLICT` with the store
unchanged when a proposal-venue or booking references it. -/
theorem deleteVenueHandler_cases (db : DB) (venueId : Nat) :
    (findVenue db venueId = none →
      (deleteVenueHandler db venueId).1.status = 404 ∧
      (deleteVenueHandler db venueId).1.errorCode = some "NOT_FOUND" ∧
      (deleteVenueHandler db venueId).2 = db) ∧
    ((findVenue db venueId).isSome = true →
      venueProposalVenueCount db venueId = 0 →
      venueBookingCount db venueId = 0 →
      (deleteVenueHandler db venueId).1.status = 200 ∧
      (deleteVenueHandler db venueId).1.errorCode = none ∧
      (deleteVenueHandler db venueId).2.venues =
        db.venues.filter (fun v => v.id != venueId) ∧
      findVenue (deleteVenueHandler db venueId).2 venueId = none) ∧
    ((findVenue db venueId).isSome = true →
      (venueProposalVenueCount db venueId ≠ 0 ∨
        venueBookingCount db venueId ≠ 0) →
      (deleteVenueHandler db venueId).1.status = 409 ∧
      (deleteVenueHandler db venueId).1.errorCode = some "CONFLICT" ∧
      (deleteVenueHandler db venueId).2 = db) := by
  refine ⟨?_, ?_, ?_⟩
  · intro h
    unfold deleteVenueHandler
    rw [h]
    exact ⟨rfl, rfl, rfl⟩
  · intro hsome hp hb
    obtain ⟨v, hv⟩ := Option.isSome_iff_exists.mp hsome
    have hcan : (canDeleteVenue db venueId).canDelete = true := by
      unfold canDeleteVenue
      dsimp only
      simp [hp, hb]
    have hhandler : deleteVenueHandler db venueId =
        ({ status := 200, errorCode := none
           message := "Venue deleted successfully" },
         { db with venues := db.venues.filter (fun v => v.id != venueId) }) := by
      unfold deleteVenueHandler
      rw [hv]
      simp [hcan]
    rw [hhandler]
    refine ⟨rfl, rfl, rfl, ?_⟩
    unfold findVenue
    dsimp only
    apply List.find?_eq_none.mpr
    intro x hx
    simp only [List.mem_filter, bne_iff_ne, ne_eq] at hx
    simp [hx.2]
  · intro hsome hblocked
    obtain ⟨v, hv⟩ := Option.isSome_iff_exists.mp hsome
    have hcan : (canDeleteVenue db venueId).canDelete = false := by
      unfold canDeleteVenue
      dsimp only
      split
      next h => rfl
      next h =>
        simp only [Bool.or_eq_true, decide_eq_true_eq] at h
        exfalso
        omega
    unfold deleteVenueHandler
    rw [hv]
    simp [hcan]

/-- Witness for C2: 404 on a missing id, 200 with removal on the unreferenced
venue, 409 without removal on the referenced one. -/
theorem deleteVenueHandler_cases_witness :
    ((deleteVenueHandler exDbVenues 99).1.status = 404 ∧
      (deleteVenueHandler exDbVenues 99).2 = exDbVenues) ∧
    ((deleteVenueHandler exDbVenues 1).1.status = 200 ∧
      findVenue (deleteVenueHandler exDbVenues 1).2 1 = none) ∧
    ((deleteVenueHandler exDbVenues 2).1.status = 409 ∧
      (deleteVenueHandler exDbVenues 2).2 = exDbVenues) := by
  refine ⟨?_, ?_, ?_⟩
  · have h := (deleteVenueHandler_cases exDbVenues 99).1 (by rfl)
    exact ⟨h.1, h.2.2⟩
  · have h := (deleteVenueHandler_cases exDbVenues 1).2.1 (by rfl) (by rfl) (by rfl)
    exact ⟨h.1, h.2.2.2⟩
  · have h := (deleteVenueHandler_cases exDbVenues 2).2.2 (by rfl) (Or.inr (by decide))
    exact ⟨h.1, h.2.2⟩

/-- C3: line totals are quantity × unit price, the proposal total is their
sum, and expected commission applies the override rate when present, else the
standard rate, divided by 100; on the spec's example lines the totals are
5000 and 4500, the proposal total 9500 and the commission 950. -/
theorem commission_calculation_spec :
    (∀ line : ChargeLine, lineTotal line = line.quantity * line.unitPrice) ∧
    (∀ lines : List ChargeLine,
      proposalTotal lines = (lines.map lineTotal).sum) ∧
    (∀ (lines : List ChargeLine) (standardRate overrideRate : ℚ),
      expectedCommission lines standardRate (some overrideRate) =
        proposalTotal lines * overrideRate / 100) ∧
    (∀ (lines : List ChargeLine) (standardRate : ℚ),
      expectedCommission lines standardRate none =
        proposalTotal lines * standardRate / 100) ∧
    (lineTotal { description := "", quantity := 2, unitPrice := 2500 } = 5000 ∧
     lineTotal { description := "", quantity := 100, unitPrice := 45 } = 4500 ∧
     proposalTotal [{ description := "", quantity := 2, unitPrice := 2500 },
       { description := "", quantity := 100, unitPrice := 45 }] = 9500 ∧
     expectedCommission [{ description := "", quantity := 2, unitPrice := 2500 },
       { description := "", quantity := 100, unitPrice := 45 }] 10 none = 950) := by
  refine ⟨fun _ => rfl, fun _ => rfl, fun _ _ _ => rfl, fun _ _ => rfl,
    ?_, ?_, ?_, ?_⟩ <;>
    norm_num [lineTotal, proposalTotal, expectedCommission]

/-- C4: with page ≥ 1 and 1 ≤ limit ≤ 100, `applyPagination` returns
skip = (page − 1)·limit and take = limit; the paginated wrapper reports
totalPages = ⌈total / limit⌉, hasNext = page < totalPages and
hasPrev = page > 1; total 25, page 2, limit 5 give totalPages 5 with both
flags true; page 1 gives hasPrev = false; the last page gives
hasNext = false. -/
theorem pagination_spec (total page limit p l lastPage : Nat)
    (hp : 1 ≤ p) (hl1 : 1 ≤ l) (hl2 : l ≤ 100)
    (hlast : (lastPage : Int) =
      (createPaginatedResult total lastPage limit).totalPages) :
    ((applyPagination { page := some p, limit := some l }).skip = (p - 1) * l ∧
     (applyPagination { page := some p, limit := some l }).take = l) ∧
    ((createPaginatedResult total page limit).totalPages =
        ⌈(total : ℚ) / (limit : ℚ)⌉ ∧
     (createPaginatedResult total page limit).hasNext =
        decide ((page : Int) < ⌈(total : ℚ) / (limit : ℚ)⌉) ∧
     (createPaginatedResult total page limit).hasPrev = decide (1 < page)) ∧
    ((createPaginatedResult 25 2 5).totalPages = 5 ∧
     (createPaginatedResult 25 2 5).hasNext = true ∧
     (createPaginatedResult 25 2 5).hasPrev = true) ∧
    (createPaginatedResult total 1 limit).hasPrev = false ∧
    (createPaginatedResult total lastPage limit).hasNext = false := by
  have hp0 : p ≠ 0 := by omega
  have hl0 : l ≠ 0 := by omega
  refine ⟨?_, ⟨rfl, rfl, rfl⟩, ?_, rfl, ?_⟩
  · unfold applyPagination jsOrNat
    dsimp only
    rw [if_neg hp0, if_neg hl0]
    have h1 : max 1 p = p := by omega
    have h2 : min 100 (max 1 l) = l := by omega
    rw [h1, h2]
    exact ⟨rfl, rfl⟩
  · have h25 : (⌈(25 : ℚ) / (5 : ℚ)⌉ : Int) = 5 := by norm_num
    refine ⟨h25, ?_, rfl⟩
    show decide ((2 : Int) < ⌈(25 : ℚ) / (5 : ℚ)⌉) = true
    rw [h25]
    rfl
  · have hnext : (createPaginatedResult total lastPage limit).hasNext =
        decide ((lastPage : Int) <
          (createPaginatedResult total lastPage limit).totalPages) := rfl
    rw [hnext, ← hlast]
    simp

/-- Witness for C4: the concrete pagination facts of the claim, from
`pagination_spec` at total 25, page 2, limit 5 (last page 5). -/
theorem pagination_spec_witness :
    (applyPagination { page := some 2, limit := some 5 }).skip = 5 ∧
    (applyPagination { page := some 2, limit := some 5 }).take = 5 ∧
    (createPaginatedResult 25 2 5).totalPages = 5 ∧
    (createPaginatedResult 25 2 5).hasNext = true ∧
    (createPaginatedResult 25 2 5).hasPrev = true ∧
    (createPaginatedResult 25 1 5).hasPrev = false ∧
    (createPaginatedResult 25 5 5).hasNext = false := by
  have h := pagination_spec 25 2 5 2 5 5 (by decide) (by decide) (by decide)
    (by show (5 : Int) = ⌈(25 : ℚ) / (5 : ℚ)⌉; norm_num)
  exact ⟨h.1.1, h.1.2, h.2.2.1.1, h.2.2.1.2.1, h.2.2.1.2.2,
    h.2.2.2.1, h.2.2.2.2⟩

/-- C5: the error translator maps P2002 to 409 `CONFLICT` naming the
offending field, P2025 to 404 `NOT_FOUND`, P2003 to 400 `BAD_REQUEST` with
the foreign-key constraint in its details, and any unrecognised database
error to a generic 500 (logged at server-error severity, message independent
of the driver error); a duplicate-email P2002 yields 409 with field `email`. -/
theorem handlePrismaError_spec (code msg : String)
    (target : Option (List String)) :
    ((handlePrismaError { code := "P2002", message := msg, target := target }).statusCode = 409 ∧
     (handlePrismaError { code := "P2002", message := msg, target := target }).code = "CONFLICT" ∧
     (handlePrismaError { code := "P2002", message := msg, target := target }).message =
       "A record with this " ++ targetField target ++ " already exists" ∧
     (handlePrismaError { code := "P2002", message := msg, target := target }).details =
       [("field", targetField target), ("constraint", "unique")]) ∧
    ((handlePrismaError { code := "P2025", message := msg, target := target }).statusCode = 404 ∧
     (handlePrismaError { code := "P2025", message := msg, target := target }).code = "NOT_FOUND") ∧
    ((handlePrismaError { code := "P2003", message := msg, target := target }).statusCode = 400 ∧
     (handlePrismaError { code := "P2003", message := msg, target := target }).code = "BAD_REQUEST" ∧
     (handlePrismaError { code := "P2003", message := msg, target := target }).details =
       [("constraint", "foreign_key")]) ∧
    (code ≠ "P2002" → code ≠ "P2025" → code ≠ "P2003" → code ≠ "P2014" →
      handlePrismaError { code := code, message := msg, target := target } =
        createInternal "Database operation failed" ∧
      (handlePrismaError { code := code, message := msg, target := target }).statusCode = 500 ∧
      loggedAsServerError
        (handlePrismaError { code := code, message := msg, target := target }) = true) ∧
    (errorHandler (ServerError.prismaKnown
        ⟨"P2002", "Unique constraint failed on the fields: (email)",
         some ["email"]⟩) =
      createConflict "A record with this email already exists"
        [("field", "email"), ("constraint", "unique")]) := by
  refine ⟨⟨rfl, rfl, rfl, rfl⟩, ⟨rfl, rfl⟩, ⟨rfl, rfl, rfl⟩, ?_, rfl⟩
  intro h1 h2 h3 h4
  have hout : handlePrismaError { code := code, message := msg, target := target } =
      createInternal "Database operation failed" := by
    unfold handlePrismaError
    rw [if_neg h1, if_neg h2, if_neg h3, if_neg h4]
  exact ⟨hout, by rw [hout]; rfl, by rw [hout]; rfl⟩

/-- Witness for C5: an unrecognised code P9999 becomes the generic logged
500, and the duplicate-email P2002 becomes the 409 naming `email`. -/
theorem handlePrismaError_spec_witness :
    handlePrismaError { code := "P9999", message := "boom", target := some ["email"] } =
      createInternal "Database operation failed" ∧
    loggedAsServerError
      (handlePrismaError { code := "P9999", message := "boom", target := some ["email"] }) = true ∧
    (handlePrismaError { code := "P2002", message := "boom", target := some ["email"] }).statusCode = 409 ∧
    (handlePrismaError { code := "P2002", message := "boom", target := some ["email"] }).message =
      "A record with this " ++ targetField (some ["email"]) ++ " already exists" := by
  have h := handlePrismaError_spec "P9999" "boom" (some ["email"])
  have hint := h.2.2.2.1 (by decide) (by decide) (by decide) (by decide)
  exact ⟨hint.1, hint.2.2, h.1.1, h.1.2.2.1⟩

/-- Helper: finding in a list extended by one element, when every earlier
element fails the predicate, inspects only the new element. -/
theorem find?_append_singleton {α : Type} (p : α → Bool) (l : List α) (w : α)
    (h : ∀ a ∈ l, p a = false) :
    (l ++ [w]).find? p = if p w then some w else none := by
  induction l with
  | nil =>
    cases hw : p w <;> simp [List.find?, hw]
  | cons x xs ih =>
    have hx : p x = false := h x (List.mem_cons_self x xs)
    have ih2 := ih (fun a ha => h a (List.mem_cons_of_mem x ha))
    simpa [List.find?, hx] using ih2

/-- Helper: mapping a function that fixes every element of a list. -/
theorem map_eq_self_of {α : Type} (l : List α) (f : α → α)
    (h : ∀ a ∈ l, f a = a) : l.map f = l := by
  induction l with
  | nil => rfl
  | cons x xs ih =>
    simp only [List.map_cons, h x (List.mem_cons_self x xs),
      ih (fun a ha => h a (List.mem_cons_of_mem x ha))]

/-- Helper: filtering with a predicate every element fails gives the empty
list. -/
theorem filter_eq_nil_of {α : Type} (p : α → Bool) (l : List α)
    (h : ∀ a ∈ l, p a = false) : l.filter p = [] := by
  induction l with
  | nil => rfl
  | cons x xs ih =>
    simp only [List.filter_cons, h x (List.mem_cons_self x xs),
      Bool.false_eq_true, if_false,
      ih (fun a ha => h a (List.mem_cons_of_mem x ha))]

/-- C6: logging in twice with the same OAuth identity (e-mail present, not
yet registered, fresh id) first creates the user with role consultant, then
updates name/provider/providerId on the same row instead of inserting a
duplicate; e-mail and role are unchanged and exactly one row matches the
e-mail. -/
theorem findOrCreateUser_idempotent (users : List User) (nextId nextId2 : Nat)
    (profile : OAuthProfile) (provider : String)
    (hemail : (profile.emails.head?).getD "" ≠ "")
    (hno : ∀ u ∈ users, u.email ≠ (profile.emails.head?).getD "")
    (hfresh : ∀ u ∈ users, u.id ≠ nextId) :
    ∃ u1 u2 : User,
      findOrCreateUser users nextId profile provider =
        Except.ok (users ++ [u1], u1) ∧
      u1.id = nextId ∧ u1.email = (profile.emails.head?).getD "" ∧
      u1.role = "consultant" ∧
      findOrCreateUser (users ++ [u1]) nextId2 profile provider =
        Except.ok (users ++ [u2], u2) ∧
      u2.id = u1.id ∧ u2.email = u1.email ∧ u2.role = u1.role ∧
      u2.name = oauthName profile ∧ u2.provider = provider ∧
      u2.providerId = profile.id ∧
      ((users ++ [u2]).filter
        (fun u => u.email == (profile.emails.head?).getD "")).length = 1 := by
  refine ⟨{ id := nextId, email := (profile.emails.head?).getD ""
            name := oauthName profile, role := "consultant"
            provider := provider, providerId := profile.id },
          { id := nextId, email := (profile.emails.head?).getD ""
            name := oauthName profile, role := "consultant"
            provider := provider, providerId := profile.id },
          ?_, rfl, rfl, rfl, ?_, rfl, rfl, rfl, rfl, rfl, rfl, ?_⟩
  · unfold findOrCreateUser
    dsimp only
    rw [if_neg hemail]
    have hfind : users.find?
        (fun u => u.email == (profile.emails.head?).getD "") = none :=
      List.find?_eq_none.mpr (fun x hx => by simp [hno x hx])
    rw [hfind]
  · unfold findOrCreateUser
    dsimp only
    rw [if_neg hemail]
    have hfind2 : (users ++
        [({ id := nextId, email := (profile.emails.head?).getD ""
            name := oauthName profile, role := "consultant"
            provider := provider, providerId := profile.id } : User)]).find?
          (fun u => u.email == (profile.emails.head?).getD "") =
        some { id := nextId, email := (profile.emails.head?).getD ""
               name := oauthName profile, role := "consultant"
               provider := provider, providerId := profile.id } := by
      rw [find?_append_singleton _ _ _ (fun x hx => by simp [hno x hx])]
      simp
    rw [hfind2]
    dsimp only
    simp only [Except.ok.injEq, Prod.mk.injEq]
    refine ⟨?_, trivial⟩
    rw [List.map_append]
    refine congrArg₂ _ ?_ ?_
    · exact map_eq_self_of _ _ (fun a ha => by simp [hfresh a ha])
    · simp
  · rw [List.filter_append]
    rw [filter_eq_nil_of _ _ (fun a ha => by simp [hno a ha])]
    simp

/-- Witness for C6: two logins with the same profile against an empty user
table create then refresh a single consultant row. -/
theorem findOrCreateUser_idempotent_witness :
    ∃ u1 u2 : User,
      findOrCreateUser [] 1 exProfile "google" = Except.ok ([] ++ [u1], u1) ∧
      u1.id = 1 ∧ u1.email = (exProfile.emails.head?).getD "" ∧
      u1.role = "consultant" ∧
      findOrCreateUser ([] ++ [u1]) 2 exProfile "google" =
        Except.ok ([] ++ [u2], u2) ∧
      u2.id = u1.id ∧ u2.email = u1.email ∧ u2.role = u1.role ∧
      u2.name = oauthName exProfile ∧ u2.provider = "google" ∧
      u2.providerId = exProfile.id ∧
      ((([] : List User) ++ [u2]).filter
        (fun u => u.email == (exProfile.emails.head?).getD "")).length = 1 :=
  findOrCreateUser_idempotent [] 1 2 exProfile "google"
    (by decide) (by simp) (by simp)

/-- C7: creating a client whose optional fields are absent or submitted as
empty strings stores NULL in every optional column, and reading the client
back returns exactly the stored row with those NULLs. -/
theorem postClient_nulls_empty_optionals (db : DB) (body : ClientCreateBody)
    (userId nextId : Nat)
    (hcompany : body.company = none ∨ body.company = some "")
    (hcontact : body.contactName = none ∨ body.contactName = some "")
    (hemail : body.email = none ∨ body.email = some "")
    (hphone : body.phone = none ∨ body.phone = some "")
    (hnotes : body.notes = none ∨ body.notes = some "")
    (hfresh : ∀ c ∈ db.clients, c.id ≠ nextId) :
    (postClientHandler db body userId nextId).2.1 = 201 ∧
    findClient (postClientHandler db body userId nextId).1 nextId =
      some (postClientHandler db body userId nextId).2.2 ∧
    (postClientHandler db body userId nextId).2.2.name = body.name ∧
    (postClientHandler db body userId nextId).2.2.company = none ∧
    (postClientHandler db body userId nextId).2.2.contactName = none ∧
    (postClientHandler db body userId nextId).2.2.email = none ∧
    (postClientHandler db body userId nextId).2.2.phone = none ∧
    (postClientHandler db body userId nextId).2.2.notes = none := by
  have hnull : ∀ v : Option String,
      (v = none ∨ v = some "") → Routes.jsOrNull v = none := by
    intro v hv
    rcases hv with h | h <;> simp [Routes.jsOrNull, h]
  refine ⟨rfl, ?_, rfl, hnull _ hcompany, hnull _ hcontact, hnull _ hemail,
    hnull _ hphone, hnull _ hnotes⟩
  unfold findClient postClientHandler
  dsimp only
  rw [find?_append_singleton _ _ _ (fun a ha => by simp [hfresh a ha])]
  simp [cleanedClientData]

/-- Witness for C7: the concrete blank-field creation stores and returns
NULL optional fields. -/
theorem postClient_nulls_empty_optionals_witness :
    (postClientHandler exEmptyDb exBody 7 1).2.1 = 201 ∧
    findClient (postClientHandler exEmptyDb exBody 7 1).1 1 =
      some (postClientHandler exEmptyDb exBody 7 1).2.2 ∧
    (postClientHandler exEmptyDb exBody 7 1).2.2.name = exBody.name ∧
    (postClientHandler exEmptyDb exBody 7 1).2.2.company = none ∧
    (postClientHandler exEmptyDb exBody 7 1).2.2.contactName = none ∧
    (postClientHandler exEmptyDb exBody 7 1).2.2.email = none ∧
    (postClientHandler exEmptyDb exBody 7 1).2.2.phone = none ∧
    (postClientHandler exEmptyDb exBody 7 1).2.2.notes = none :=
  postClient_nulls_empty_optionals exEmptyDb exBody 7 1
    (Or.inr rfl) (Or.inr rfl) (Or.inl rfl) (Or.inr rfl) (Or.inl rfl)
    (by simp [exEmptyDb])

/-- C8: `canAccessOwnResource` grants access exactly to admins and to the
resource's creator, and every permission of the consultant role is also held
by the admin role. -/
theorem access_control_spec (user consultantUser adminUser : AuthenticatedUser)
    (creatorId : Nat) (p : Permission)
    (hc : consultantUser.role = "consultant")
    (ha : adminUser.role = "admin") :
    (canAccessOwnResource user creatorId = true ↔
      (user.role = "admin" ∨ user.id = creatorId)) ∧
    (hasPermission consultantUser p = true →
      hasPermission adminUser p = true) := by
  constructor
  · unfold canAccessOwnResource
    split
    next h => simp [h]
    next h => simp [h, beq_iff_eq]
  · intro hcp
    have h1 : rolePermissions "consultant" = consultantPermissions := by
      unfold rolePermissions
      rw [if_neg (by decide), if_pos rfl]
    have h2 : rolePermissions "admin" = adminPermissions := by
      unfold rolePermissions
      rw [if_pos rfl]
    unfold hasPermission at hcp ⊢
    rw [hc, h1] at hcp
    rw [ha, h2]
    revert hcp
    cases p <;> decide

/-- Witness for C8: the admin accesses a resource they did not create, and
inherits a consultant permission. -/
theorem access_control_spec_witness :
    canAccessOwnResource exAdmin 99 = true ∧
    hasPermission exAdmin Permission.createClient = true := by
  have h := access_control_spec exAdmin exConsultant exAdmin 99
    Permission.createClient rfl rfl
  exact ⟨h.1.mpr (Or.inl rfl), h.2 (by decide)⟩

/-- C10 counterexample: the role string `constructor` is neither admin nor
consultant, yet the lookup reaches the member inherited from
`Object.prototype`, the `|| []` fallback does not apply, and the `.includes`
call throws a TypeError — `hasPermission` fails instead of returning false. -/
theorem hasPermission_prototype_role_counterexample :
    exProtoUser.role ≠ "admin" ∧ exProtoUser.role ≠ "consultant" ∧
    hasPermissionJs exProtoUser Permission.manageUsers = JsResult.typeError ∧
    hasPermissionJs exProtoUser Permission.manageUsers ≠
      JsResult.ok false :=
  ⟨by decide, by decide, rfl, by decide⟩

/-- C10 amended: a role string that is neither admin nor consultant and not
an `Object.prototype` property name yields an undefined lookup, the `|| []`
fallback gives the empty permission set, and `hasPermission` returns false
for every permission; a role string that is such a property name keeps the
truthy inherited member and the `.includes` call throws a TypeError instead
of returning false. -/
theorem hasPermissionJs_unknown_role (user : AuthenticatedUser)
    (p : Permission)
    (h1 : user.role ≠ "admin") (h2 : user.role ≠ "consultant") :
    (objectPrototypeKeys.contains user.role = false →
      hasPermissionJs user p = JsResult.ok false) ∧
    (objectPrototypeKeys.contains user.role = true →
      hasPermissionJs user p = JsResult.typeError) := by
  constructor
  · intro h3
    have h3' : ¬(objectPrototypeKeys.contains user.role = true) := by
      rw [h3]
      simp
    unfold hasPermissionJs rolePermissionsLookup
    rw [if_neg h1, if_neg h2, if_neg h3']
    rfl
  · intro h3
    unfold hasPermissionJs rolePermissionsLookup
    rw [if_neg h1, if_neg h2, if_pos h3]

/-- Witness for the amended C10: the `superuser` role gets no permission and
the `constructor` role throws. -/
theorem hasPermissionJs_unknown_role_witness :
    hasPermissionJs exStranger Permission.manageUsers = JsResult.ok false ∧
    hasPermissionJs exProtoUser Permission.manageUsers =
      JsResult.typeError :=
  ⟨(hasPermissionJs_unknown_role exStranger Permission.manageUsers
      (by decide) (by decide)).1 (by decide),
   (hasPermissionJs_unknown_role exProtoUser Permission.manageUsers
      (by decide) (by decide)).2 (by decide)⟩

/-- C9 counterexample: a JSON request one byte over the 10mb limit is
rejected by the body parser, whose `PayloadTooLargeError` the central error
handler translates to 400 `BAD_REQUEST` — not to 413 `PAYLOAD_TOO_LARGE` as
the claim states. -/
theorem bodySize_oversize_json_counterexample :
    (bodySizePipeline { contentLength := 10485761, parsedBody := true }).map
      ApiError.statusCode = some 400 ∧
    (bodySizePipeline { contentLength := 10485761, parsedBody := true }).map
      ApiError.code = some "BAD_REQUEST" := by
  constructor <;> rfl

/-- C9 amended: a request whose body exceeds the 10mb limit is answered 413
`PAYLOAD_TOO_LARGE` by `bodySizeLimit` only when no body parser consumed it;
when a mounted body parser rejects it first, the error handler answers 400
`BAD_REQUEST` with details naming the 10mb limit. -/
theorem bodySize_amended (r : IncomingRequest)
    (hover : r.contentLength > 10485760) :
    (r.parsedBody = false →
      bodySizePipeline r = some { statusCode := 413,
                                  code := "PAYLOAD_TOO_LARGE",
                                  message := "Request body too large. Maximum size is 10mb",
                                  field := none, details := [] }) ∧
    (r.parsedBody = true →
      bodySizePipeline r = some (createBadRequest
        "Request payload too large" none
        [("limit", "10mb"), ("type", "payload_size")]) ∧
      (bodySizePipeline r).map ApiError.statusCode = some 400) := by
  have hparse : parseSize "10mb" = 10485760 := by rfl
  constructor
  · intro hfalse
    unfold bodySizePipeline
    rw [hfalse]
    simp only [Bool.false_and, Bool.false_eq_true, if_false]
    unfold bodySizeLimit
    rw [hparse, if_pos hover]
    rfl
  · intro htrue
    have hcond : (r.parsedBody &&
        decide (parseSize "10mb" < r.contentLength)) = true := by
      rw [htrue, hparse]
      simp only [Bool.true_and, decide_eq_true_eq]
      omega
    have hres : bodySizePipeline r = some (createBadRequest
        "Request payload too large" none
        [("limit", "10mb"), ("type", "payload_size")]) := by
      unfold bodySizePipeline
      rw [if_pos hcond]
      rfl
    exact ⟨hres, by rw [hres]; rfl⟩

/-- Witness for the amended C9: a non-parsed oversized request gets the 413
envelope, a parsed one the 400 envelope. -/
theorem bodySize_amended_witness :
    bodySizePipeline { contentLength := 10485761, parsedBody := false } =
      some { statusCode := 413, code := "PAYLOAD_TOO_LARGE",
             message := "Request body too large. Maximum size is 10mb",
             field := none, details := [] } ∧
    bodySizePipeline { contentLength := 10485761, parsedBody := true } =
      some (createBadRequest "Request payload too large" none
        [("limit", "10mb"), ("type", "payload_size")]) :=
  ⟨(bodySize_amended { contentLength := 10485761, parsedBody := false }
      (by decide)).1 rfl,
   ((bodySize_amended { contentLength := 10485761, parsedBody := true }
      (by decide)).2 rfl).1⟩

end Claims

end VenueCRM
